import Mathlib

/-!
# Verification of the `signalHandler` position/broker engine

A shallow embedding of `signalHandler.py` from the PythonBacktestRunner
repository.  Prices and P/L values are modelled as rationals (`ℚ`); the
per-bar history lists that Python pre-sizes with `""` placeholders are
modelled as lists of `Option` cells (`none` = the `""` placeholder, written
once when the corresponding bar is processed).  Python's `prev_traded_price`
is `None` while flat, so it is an `Option ℚ`; the fields `stop_loss_px`
and `take_profit_px` do not exist on the Python object until the first
open (and are never read while flat), so we initialise them to `0`, the
same value `closeTrade` writes when clearing them.
-/

namespace SignalHandler

/-- State of a `signalHandler` instance: the constructor arguments that the
engine keeps, the mutable position/counter fields, and the pre-sized
per-bar history lists. -/
structure EngineState where
  original_stop_loss : ℚ
  original_take_profit : ℚ
  guaranteed_sl : Bool
  broker_cost : ℚ
  stop_loss : ℚ
  take_profit : ℚ
  prev_traded_position : ℤ
  prev_traded_price : Option ℚ
  total_profit : ℚ
  current_action : String
  trades_total : ℕ
  trades_won : ℕ
  trades_lost : ℕ
  trades_tied : ℕ
  action : List (Option String)
  position : List (Option ℤ)
  arr_PL : List (Option ℚ)
  arr_total_profit : List (Option ℚ)
  executed_price : List (Option ℚ)
  stop_loss_px_list : List (Option ℚ)
  take_profit_px_list : List (Option ℚ)
  stop_loss_px : ℚ
  take_profit_px : ℚ
  deriving Repr, DecidableEq

/-- `__init__`: the engine state right after construction over `n` bars with
the given configuration (`stop_loss`, `take_profit`, `guaranteed_sl`,
`broker_cost`).  All counters are zero, the position is flat, and every
history list holds `n` placeholder cells. -/
def initState (stop_loss take_profit : ℚ) (guaranteed_sl : Bool)
    (broker_cost : ℚ) (n : ℕ) : EngineState where
  original_stop_loss := stop_loss
  original_take_profit := take_profit
  guaranteed_sl := guaranteed_sl
  broker_cost := broker_cost
  stop_loss := stop_loss
  take_profit := take_profit
  prev_traded_position := 0
  prev_traded_price := none
  total_profit := 0
  current_action := ""
  trades_total := 0
  trades_won := 0
  trades_lost := 0
  trades_tied := 0
  action := List.replicate n none
  position := List.replicate n none
  arr_PL := List.replicate n none
  arr_total_profit := List.replicate n none
  executed_price := List.replicate n none
  stop_loss_px_list := List.replicate n none
  take_profit_px_list := List.replicate n none
  stop_loss_px := 0
  take_profit_px := 0

/-- Python's `round(x, 5)`: round to 5 decimal places.  (Python rounds exact
half-ulp ties to even; the tie direction is irrelevant to every property
below, which only inspects the sign of the result.) -/
def round5 (q : ℚ) : ℚ := (round (q * 100000) : ℚ) / 100000

/-- `bandPL`: when `guaranteed_sl` is set, clamp the raw P/L to the
`take_profit` offset from above and the `stop_loss` offset from below;
in both modes subtract the flat `broker_cost` last. -/
def bandPL (s : EngineState) (PL : ℚ) : ℚ :=
  let PL :=
    if s.guaranteed_sl then
      if PL > s.take_profit then s.take_profit
      else if PL < s.stop_loss then s.stop_loss
      else PL
    else PL
  PL - s.broker_cost

/-- `store_executed_price`: record the execution price of the bar: ask for
`"buy"`/`"close short"`, bid for `"short"`/`"close long"`, nothing for
any other `current_action`. -/
def store_executed_price (s : EngineState) (bid_price ask_price : ℚ)
    (index : ℕ) : EngineState :=
  if s.current_action = "buy" ∨ s.current_action = "close short" then
    { s with executed_price := s.executed_price.set index (some ask_price) }
  else if s.current_action = "short" ∨ s.current_action = "close long" then
    { s with executed_price := s.executed_price.set index (some bid_price) }
  else s

/-- First half of `closeTrade`: count the trade in `trades_total` and set
`current_action` to the close label of the side being closed (the label
is left alone for a position value outside `{-1, 1}`). -/
def closeTradeLabel (s : EngineState) : EngineState :=
  if s.prev_traded_position = -1 then
    { s with trades_total := s.trades_total + 1, current_action := "close short" }
  else if s.prev_traded_position = 1 then
    { s with trades_total := s.trades_total + 1, current_action := "close long" }
  else { s with trades_total := s.trades_total + 1 }

/-- Middle of `closeTrade`: store the executed price, add the
already-banded `PL` to the running total, and reset the position, entry
price, both offsets and both limit price levels. -/
def closeTradeBook (s : EngineState) (PL bid_price ask_price : ℚ)
    (index : ℕ) : EngineState :=
  let s := store_executed_price s bid_price ask_price index
  { s with
    total_profit := s.total_profit + PL
    prev_traded_position := 0
    prev_traded_price := none
    stop_loss := s.original_stop_loss
    take_profit := s.original_take_profit
    take_profit_px := 0
    stop_loss_px := 0 }

/-- Last part of `closeTrade`: classify the trade as won, lost or tied by
the sign of `round(PL, 5)`. -/
def closeTradeClassify (s : EngineState) (PL : ℚ) : EngineState :=
  if round5 PL > 0 then { s with trades_won := s.trades_won + 1 }
  else if round5 PL < 0 then { s with trades_lost := s.trades_lost + 1 }
  else if round5 PL = 0 then { s with trades_tied := s.trades_tied + 1 }
  else s

/-- `closeTrade`: book a close.  Counts the trade, labels the action from
the side being closed, stores the executed price, adds the already-banded
`PL` to the running total, resets the position and both limit levels, and
classifies the trade by the sign of `round(PL, 5)` — the three stages in
the source's statement order. -/
def closeTrade (s : EngineState) (PL bid_price ask_price : ℚ)
    (index : ℕ) : EngineState :=
  closeTradeClassify (closeTradeBook (closeTradeLabel s) PL bid_price ask_price index) PL

/-- `saveStats`: write this bar's action label, realized P/L, running total
profit and post-processing position into the history lists.  (The Python
source branches on `prev_traded_position ∈ {1, -1, 0}` before writing the
action label, with identical bodies; the label is skipped for any other
position value.) -/
def saveStats (s : EngineState) (PL : ℚ) (index : ℕ) : EngineState :=
  if s.prev_traded_position = 1 ∨ s.prev_traded_position = -1 ∨
      s.prev_traded_position = 0 then
    { s with
      action := s.action.set index (some s.current_action)
      arr_PL := s.arr_PL.set index (some PL)
      arr_total_profit := s.arr_total_profit.set index (some s.total_profit)
      position := s.position.set index (some s.prev_traded_position) }
  else
    { s with
      arr_PL := s.arr_PL.set index (some PL)
      arr_total_profit := s.arr_total_profit.set index (some s.total_profit)
      position := s.position.set index (some s.prev_traded_position) }

/-- `checkStopConditions`: once per bar while a position is open, mark the
position to market (ask for a short, bid for a long), close it when the
take-profit level is breached, otherwise when the stop-loss level is
breached, and in every case save this bar's stats.  While flat it only
records a `"hold"` bar.  (`prev_traded_price` is only read on the open
branches, where it is never `none`; `getD 0` stands for that read.) -/
def checkStopConditions (s : EngineState) (bid_price ask_price : ℚ)
    (index : ℕ) : EngineState :=
  let PL : ℚ := 0
  let s := { s with current_action := "hold" }
  if s.prev_traded_position = -1 then
    let PL := (s.prev_traded_position : ℚ) * (ask_price - s.prev_traded_price.getD 0)
    if s.take_profit_px ≥ ask_price then
      let PL := bandPL s PL
      let s := closeTrade s PL bid_price ask_price index
      saveStats s PL index
    else if s.stop_loss_px ≤ ask_price then
      let PL := bandPL s PL
      let s := closeTrade s PL bid_price ask_price index
      saveStats s PL index
    else saveStats s PL index
  else if s.prev_traded_position = 1 then
    let PL := (s.prev_traded_position : ℚ) * (bid_price - s.prev_traded_price.getD 0)
    if s.take_profit_px ≤ bid_price then
      let PL := bandPL s PL
      let s := closeTrade s PL bid_price ask_price index
      saveStats s PL index
    else if s.stop_loss_px ≥ bid_price then
      let PL := bandPL s PL
      let s := closeTrade s PL bid_price ask_price index
      saveStats s PL index
    else saveStats s PL index
  else saveStats s PL index

/-- Which limit an open position breaches on a bar. -/
inductive LimitHit where
  | takeProfit
  | stopLoss
  deriving Repr, DecidableEq

/-- The branch of `checkStopConditions`'s `if`/`elif` chain that fires on
this bar: `some .takeProfit` when the take-profit test (checked first)
succeeds, `some .stopLoss` when only the stop-loss test succeeds, `none`
when neither does or no position is open.  This mirrors the control flow
of `checkStopConditions` line by line. -/
def checkStopHit (s : EngineState) (bid_price ask_price : ℚ) : Option LimitHit :=
  if s.prev_traded_position = -1 then
    if s.take_profit_px ≥ ask_price then some .takeProfit
    else if s.stop_loss_px ≤ ask_price then some .stopLoss
    else none
  else if s.prev_traded_position = 1 then
    if s.take_profit_px ≤ bid_price then some .takeProfit
    else if s.stop_loss_px ≥ bid_price then some .stopLoss
    else none
  else none

/-- `buy`: from flat, open a long at the ask and set both limit levels;
while already long, delegate to the stop/target check; while short, close
the short at the ask.  (The final branch — a `prev_traded_position`
outside `{-1, 0, 1}` — raises `Exception("Unknown Signal!")` in the
source; it is unreachable from any reachable state and modelled as a
no-op here.)  Note the source stores the `take_profit` *offset*, not
`take_profit_px`, into `take_profit_px_list` on the open branch. -/
def buy (s : EngineState) (bid_price ask_price : ℚ) (index : ℕ) : EngineState :=
  let PL : ℚ := 0
  if s.prev_traded_position = 0 then
    let stop_loss_px := ask_price + s.stop_loss
    let take_profit_px := ask_price + s.take_profit
    let s := { s with
      current_action := "buy"
      prev_traded_position := 1
      prev_traded_price := some ask_price
      stop_loss_px := stop_loss_px
      stop_loss_px_list := s.stop_loss_px_list.set index (some stop_loss_px)
      take_profit_px := take_profit_px
      take_profit_px_list := s.take_profit_px_list.set index (some s.take_profit) }
    store_executed_price (saveStats s PL index) bid_price ask_price index
  else if s.prev_traded_position = 1 then
    checkStopConditions s bid_price ask_price index
  else if s.prev_traded_position = -1 then
    let s := { s with current_action := "close short" }
    let PL := bandPL s
      ((s.prev_traded_position : ℚ) * (ask_price - s.prev_traded_price.getD 0))
    store_executed_price
      (saveStats (closeTrade s PL bid_price ask_price index) PL index)
      bid_price ask_price index
  else s

/-- `sell`: from flat, open a short at the bid and set both limit levels
(here the source stores the computed `take_profit_px` level, unlike
`buy`); while already short, delegate to the stop/target check; while
long, close the long at the bid.  The unreachable final branch raises in
the source and is a no-op here. -/
def sell (s : EngineState) (bid_price ask_price : ℚ) (index : ℕ) : EngineState :=
  let PL : ℚ := 0
  if s.prev_traded_position = 0 then
    let stop_loss_px := bid_price - s.stop_loss
    let take_profit_px := bid_price - s.take_profit
    let s := { s with
      current_action := "short"
      prev_traded_position := -1
      prev_traded_price := some bid_price
      stop_loss_px := stop_loss_px
      stop_loss_px_list := s.stop_loss_px_list.set index (some stop_loss_px)
      take_profit_px := take_profit_px
      take_profit_px_list := s.take_profit_px_list.set index (some take_profit_px) }
    store_executed_price (saveStats s PL index) bid_price ask_price index
  else if s.prev_traded_position = -1 then
    checkStopConditions s bid_price ask_price index
  else if s.prev_traded_position = 1 then
    let s := { s with current_action := "close long" }
    let PL := bandPL s
      ((s.prev_traded_position : ℚ) * (bid_price - s.prev_traded_price.getD 0))
    store_executed_price
      (saveStats (closeTrade s PL bid_price ask_price index) PL index)
      bid_price ask_price index
  else s

/-- The trade-statistics part of `getSummary`, which reads
`arr_total_profit[-1]` — Python's negative index is the last element of a
nonempty list and an `IndexError` on an empty one, so the result is an
`Option`, `none` exactly when the history is empty.  Fields in order:
Total Trades, Total P/L (the raw last cell; still the `""` placeholder —
`none` — when the last bar was never processed), Trades Won (n),
Trades Won (%), Trades Lost (n), Trades Lost (%), Trades Tied (n),
Trades Tied (%); percentages are `count / total * 100` guarded to `0`
when `trades_total` is zero. -/
def getSummary (s : EngineState) :
    Option (ℕ × Option ℚ × ℕ × ℚ × ℕ × ℚ × ℕ × ℚ) :=
  match s.arr_total_profit.getLast? with
  | none => none
  | some lastCell =>
    some (s.trades_total, lastCell,
      s.trades_won,
      (if s.trades_total > 0 then (s.trades_won : ℚ) / s.trades_total * 100 else 0),
      s.trades_lost,
      (if s.trades_total > 0 then (s.trades_lost : ℚ) / s.trades_total * 100 else 0),
      s.trades_tied,
      (if s.trades_total > 0 then (s.trades_tied : ℚ) / s.trades_total * 100 else 0))

/-- A per-bar engine operation, as invoked by the backtest loop: a buy
signal, a sell signal, or the stop-condition check run on a hold bar.
Each carries the bar's bid/ask prices and history index. -/
inductive Op where
  | buy (bid ask : ℚ) (index : ℕ)
  | sell (bid ask : ℚ) (index : ℕ)
  | check (bid ask : ℚ) (index : ℕ)
  deriving Repr, DecidableEq

/-- Apply one engine operation. -/
def applyOp (s : EngineState) : Op → EngineState
  | .buy bid ask index => buy s bid ask index
  | .sell bid ask index => sell s bid ask index
  | .check bid ask index => checkStopConditions s bid ask index

/-- Apply a sequence of engine operations in order. -/
def runOps (s : EngineState) (ops : List Op) : EngineState :=
  ops.foldl applyOp s

/-- A state is reachable when it is produced from some freshly constructed
engine by some sequence of `buy`/`sell`/`checkStopConditions` calls. -/
def Reachable (s : EngineState) : Prop :=
  ∃ (stop_loss take_profit : ℚ) (guaranteed_sl : Bool) (broker_cost : ℚ)
    (n : ℕ) (ops : List Op),
    s = runOps (initState stop_loss take_profit guaranteed_sl broker_cost n) ops

/-- Whether processing this operation from state `s` closes an open
position on this bar: an opposing signal always closes, a same-direction
signal or a hold bar closes exactly when `checkStopConditions` finds a
breached limit, and nothing closes from flat. -/
def closesBar (s : EngineState) : Op → Bool
  | .buy bid ask _ =>
    if s.prev_traded_position = 0 then false
    else if s.prev_traded_position = 1 then (checkStopHit s bid ask).isSome
    else if s.prev_traded_position = -1 then true
    else false
  | .sell bid ask _ =>
    if s.prev_traded_position = 0 then false
    else if s.prev_traded_position = -1 then (checkStopHit s bid ask).isSome
    else if s.prev_traded_position = 1 then true
    else false
  | .check bid ask _ => (checkStopHit s bid ask).isSome

/-- The state invariant maintained by every engine operation: the position
is one of flat/long/short; the working offsets equal the configured ones;
while flat the entry price is `None` and both limit levels are cleared;
while open an entry price is present; and the three outcome counters
account for every counted trade. -/
def Inv (s : EngineState) : Prop :=
  (s.prev_traded_position = 0 ∨ s.prev_traded_position = 1 ∨
    s.prev_traded_position = -1) ∧
  s.stop_loss = s.original_stop_loss ∧
  s.take_profit = s.original_take_profit ∧
  (s.prev_traded_position = 0 →
    s.prev_traded_price = none ∧ s.stop_loss_px = 0 ∧ s.take_profit_px = 0) ∧
  (s.prev_traded_position ≠ 0 → ∃ p, s.prev_traded_price = some p) ∧
  s.trades_won + s.trades_lost + s.trades_tied = s.trades_total

/-- Everything a close event does to the scalar state, for a close booked
with net (banded) P/L `net`: profit accumulated, trade counted, the
outcome counter selected by the sign of `round(net, 5)` bumped, position
reset to flat with the entry price and both limit levels cleared. -/
def closeOutcome (s t : EngineState) (net : ℚ) : Prop :=
  t.total_profit = s.total_profit + net ∧
  t.trades_total = s.trades_total + 1 ∧
  t.trades_won = s.trades_won + (if round5 net > 0 then 1 else 0) ∧
  t.trades_lost = s.trades_lost + (if round5 net < 0 then 1 else 0) ∧
  t.trades_tied = s.trades_tied + (if round5 net = 0 then 1 else 0) ∧
  t.prev_traded_position = 0 ∧
  t.prev_traded_price = none ∧
  t.stop_loss_px = 0 ∧
  t.take_profit_px = 0

/-! ## Characterization lemmas

Each engine operation is rewritten as a single record update, so that the
projections of a composed operation compute by rewriting without ever
unfolding the whole composition. -/

/-- `bandPL` written out: the clamp (under the guaranteed-stop flag)
followed by the broker-cost deduction. -/
@[simp] theorem bandPL_eq (s : EngineState) (PL : ℚ) :
    bandPL s PL =
      (if s.guaranteed_sl then
        (if PL > s.take_profit then s.take_profit
         else if PL < s.stop_loss then s.stop_loss
         else PL)
       else PL) - s.broker_cost := rfl

/-- `store_executed_price` as a single record update. -/
@[simp] theorem store_executed_price_eq (s : EngineState) (bid ask : ℚ) (i : ℕ) :
    store_executed_price s bid ask i = { s with executed_price :=
      (if s.current_action = "buy" ∨ s.current_action = "close short" then
        s.executed_price.set i (some ask)
      else if s.current_action = "short" ∨ s.current_action = "close long" then
        s.executed_price.set i (some bid)
      else s.executed_price) } := by
  unfold store_executed_price
  split_ifs <;> rfl

/-- `saveStats` as a single record update.  (The action label is written
for every position value in `{1, -1, 0}`.) -/
@[simp] theorem saveStats_eq (s : EngineState) (PL : ℚ) (i : ℕ) :
    saveStats s PL i = { s with
      action :=
        (if s.prev_traded_position = 1 ∨ s.prev_traded_position = -1 ∨
            s.prev_traded_position = 0 then
          s.action.set i (some s.current_action)
        else s.action)
      arr_PL := s.arr_PL.set i (some PL)
      arr_total_profit := s.arr_total_profit.set i (some s.total_profit)
      position := s.position.set i (some s.prev_traded_position) } := by
  unfold saveStats
  split_ifs <;> rfl

/-- `closeTradeLabel` as a single record update. -/
@[simp] theorem closeTradeLabel_eq (s : EngineState) :
    closeTradeLabel s = { s with
      trades_total := s.trades_total + 1
      current_action :=
        (if s.prev_traded_position = -1 then "close short"
        else if s.prev_traded_position = 1 then "close long"
        else s.current_action) } := by
  unfold closeTradeLabel
  split_ifs <;> rfl

/-- `closeTradeBook` as a single record update. -/
@[simp] theorem closeTradeBook_eq (s : EngineState) (PL bid ask : ℚ) (i : ℕ) :
    closeTradeBook s PL bid ask i = { s with
      executed_price :=
        (if s.current_action = "buy" ∨ s.current_action = "close short" then
          s.executed_price.set i (some ask)
        else if s.current_action = "short" ∨ s.current_action = "close long" then
          s.executed_price.set i (some bid)
        else s.executed_price)
      total_profit := s.total_profit + PL
      prev_traded_position := 0
      prev_traded_price := none
      stop_loss := s.original_stop_loss
      take_profit := s.original_take_profit
      take_profit_px := 0
      stop_loss_px := 0 } := by
  unfold closeTradeBook
  rw [store_executed_price_eq]

/-- `closeTradeClassify` as a single record update: exactly one of the
three counters is bumped, selected by the sign of `round5 PL`. -/
@[simp] theorem closeTradeClassify_eq (s : EngineState) (PL : ℚ) :
    closeTradeClassify s PL = { s with
      trades_won := s.trades_won + (if round5 PL > 0 then 1 else 0)
      trades_lost := s.trades_lost + (if round5 PL < 0 then 1 else 0)
      trades_tied := s.trades_tied + (if round5 PL = 0 then 1 else 0) } := by
  unfold closeTradeClassify
  rcases lt_trichotomy (round5 PL) 0 with h | h | h <;>
    split_ifs <;> simp <;> linarith

/-! ## The engine invariant -/

/-- The freshly constructed engine satisfies the invariant. -/
theorem inv_initState (sl tp : ℚ) (g : Bool) (c : ℚ) (n : ℕ) :
    Inv (initState sl tp g c n) :=
  ⟨Or.inl rfl, rfl, rfl, fun _ => ⟨rfl, rfl, rfl⟩, fun h => absurd rfl h, rfl⟩

/-- `closeTrade` books exactly the close outcome for its `PL` argument. -/
theorem closeTrade_closeOutcome (s : EngineState) (PL b a : ℚ) (i : ℕ) :
    closeOutcome s (closeTrade s PL b a i) PL := by
  simp [closeOutcome, closeTrade]

/-- After `closeTrade` the working offsets equal the configured ones. -/
theorem closeTrade_offsets (s : EngineState) (PL b a : ℚ) (i : ℕ) :
    (closeTrade s PL b a i).stop_loss = (closeTrade s PL b a i).original_stop_loss ∧
    (closeTrade s PL b a i).take_profit = (closeTrade s PL b a i).original_take_profit := by
  simp [closeTrade]

/-- A state reached through a close outcome from an invariant-respecting
state satisfies the invariant, provided its offsets are back to the
configured ones. -/
theorem inv_after_close (s t : EngineState) (net : ℚ)
    (hcnt : s.trades_won + s.trades_lost + s.trades_tied = s.trades_total)
    (hsl : t.stop_loss = t.original_stop_loss)
    (htp : t.take_profit = t.original_take_profit)
    (h : closeOutcome s t net) : Inv t := by
  obtain ⟨h1, h2, h3, h4, h5, h6, h7, h8, h9⟩ := h
  refine ⟨Or.inl h6, hsl, htp, fun _ => ⟨h7, h8, h9⟩, fun hc => absurd h6 hc, ?_⟩
  rw [h3, h4, h5, h2]
  rcases lt_trichotomy (round5 net) 0 with hr | hr | hr
  · rw [if_neg (by linarith), if_pos hr, if_neg (by exact hr.ne)]
    omega
  · rw [if_neg (by simp [hr]), if_neg (by simp [hr]), if_pos hr]
    omega
  · rw [if_pos hr, if_neg (by linarith), if_neg (by exact (ne_of_gt hr))]
    omega

/-- `saveStats` preserves the invariant (it only writes history cells). -/
theorem inv_saveStats (t : EngineState) (PL : ℚ) (i : ℕ) (h : Inv t) :
    Inv (saveStats t PL i) := by
  obtain ⟨a1, a2, a3, a4, a5, a6⟩ := h
  unfold saveStats
  split_ifs <;> exact ⟨a1, a2, a3, a4, a5, a6⟩

/-- `store_executed_price` preserves the invariant. -/
theorem inv_store_executed_price (t : EngineState) (b a : ℚ) (i : ℕ)
    (h : Inv t) : Inv (store_executed_price t b a i) := by
  obtain ⟨a1, a2, a3, a4, a5, a6⟩ := h
  unfold store_executed_price
  split_ifs <;> exact ⟨a1, a2, a3, a4, a5, a6⟩

/-- `checkStopConditions` preserves the invariant. -/
theorem inv_checkStopConditions (s : EngineState) (b a : ℚ) (i : ℕ)
    (h : Inv s) : Inv (checkStopConditions s b a i) := by
  obtain ⟨hpos, hsl, htp, hflat, hopen, hcnt⟩ := h
  have hInvHold : Inv { s with current_action := "hold" } :=
    ⟨hpos, hsl, htp, hflat, hopen, hcnt⟩
  unfold checkStopConditions
  dsimp only
  split_ifs with c1 c2 c3 c4 c5 c6
  · exact inv_saveStats _ _ _ (inv_after_close _ _ _ hcnt
      (closeTrade_offsets _ _ _ _ _).1 (closeTrade_offsets _ _ _ _ _).2
      (closeTrade_closeOutcome _ _ _ _ _))
  · exact inv_saveStats _ _ _ (inv_after_close _ _ _ hcnt
      (closeTrade_offsets _ _ _ _ _).1 (closeTrade_offsets _ _ _ _ _).2
      (closeTrade_closeOutcome _ _ _ _ _))
  · exact inv_saveStats _ _ _ hInvHold
  · exact inv_saveStats _ _ _ (inv_after_close _ _ _ hcnt
      (closeTrade_offsets _ _ _ _ _).1 (closeTrade_offsets _ _ _ _ _).2
      (closeTrade_closeOutcome _ _ _ _ _))
  · exact inv_saveStats _ _ _ (inv_after_close _ _ _ hcnt
      (closeTrade_offsets _ _ _ _ _).1 (closeTrade_offsets _ _ _ _ _).2
      (closeTrade_closeOutcome _ _ _ _ _))
  · exact inv_saveStats _ _ _ hInvHold
  · exact inv_saveStats _ _ _ hInvHold

/-- `buy` preserves the invariant. -/
theorem inv_buy (s : EngineState) (b a : ℚ) (i : ℕ) (h : Inv s) :
    Inv (buy s b a i) := by
  obtain ⟨hpos, hsl, htp, hflat, hopen, hcnt⟩ := h
  unfold buy
  dsimp only
  split_ifs with c0 c1 c2
  · refine inv_store_executed_price _ _ _ _ (inv_saveStats _ _ _
      ⟨Or.inr (Or.inl rfl), hsl, htp,
        fun hh => absurd (show (1 : ℤ) = 0 from hh) (by norm_num),
        fun _ => ⟨a, rfl⟩, hcnt⟩)
  · exact inv_checkStopConditions _ _ _ _ ⟨hpos, hsl, htp, hflat, hopen, hcnt⟩
  · exact inv_store_executed_price _ _ _ _ (inv_saveStats _ _ _
      (inv_after_close _ _ _ hcnt
        (closeTrade_offsets _ _ _ _ _).1 (closeTrade_offsets _ _ _ _ _).2
        (closeTrade_closeOutcome _ _ _ _ _)))
  · exact ⟨hpos, hsl, htp, hflat, hopen, hcnt⟩

/-- `sell` preserves the invariant. -/
theorem inv_sell (s : EngineState) (b a : ℚ) (i : ℕ) (h : Inv s) :
    Inv (sell s b a i) := by
  obtain ⟨hpos, hsl, htp, hflat, hopen, hcnt⟩ := h
  unfold sell
  dsimp only
  split_ifs with c0 c1 c2
  · refine inv_store_executed_price _ _ _ _ (inv_saveStats _ _ _
      ⟨Or.inr (Or.inr rfl), hsl, htp,
        fun hh => absurd (show (-1 : ℤ) = 0 from hh) (by norm_num),
        fun _ => ⟨b, rfl⟩, hcnt⟩)
  · exact inv_checkStopConditions _ _ _ _ ⟨hpos, hsl, htp, hflat, hopen, hcnt⟩
  · exact inv_store_executed_price _ _ _ _ (inv_saveStats _ _ _
      (inv_after_close _ _ _ hcnt
        (closeTrade_offsets _ _ _ _ _).1 (closeTrade_offsets _ _ _ _ _).2
        (closeTrade_closeOutcome _ _ _ _ _)))
  · exact ⟨hpos, hsl, htp, hflat, hopen, hcnt⟩

/-- Every engine operation preserves the invariant. -/
theorem inv_applyOp (s : EngineState) (op : Op) (h : Inv s) :
    Inv (applyOp s op) := by
  cases op with
  | buy b a i => exact inv_buy s b a i h
  | sell b a i => exact inv_sell s b a i h
  | check b a i => exact inv_checkStopConditions s b a i h

/-- Sequences of engine operations preserve the invariant. -/
theorem inv_runOps (s : EngineState) (ops : List Op) (h : Inv s) :
    Inv (runOps s ops) := by
  induction ops generalizing s with
  | nil => exact h
  | cons op rest ih => exact ih _ (inv_applyOp s op h)

/-- Every reachable engine state satisfies the invariant. -/
theorem reachable_inv (s : EngineState) (h : Reachable s) : Inv s := by
  obtain ⟨sl, tp, g, c, n, ops, rfl⟩ := h
  exact inv_runOps _ _ (inv_initState sl tp g c n)

/-! ## Claims -/

/-- **C3**: `bandPL` clamps the raw P/L into `[stop_loss, take_profit]`
when the guaranteed-stop flag is enabled, passes it through unclamped when
disabled, and subtracts the flat broker cost last in both cases.  (The
interval notation presupposes a well-formed configuration with
`stop_loss ≤ take_profit`.) -/
theorem C3_bandPL_clamp (s : EngineState) (PL : ℚ)
    (h : s.stop_loss ≤ s.take_profit) :
    (s.guaranteed_sl = true →
      bandPL s PL = max s.stop_loss (min s.take_profit PL) - s.broker_cost) ∧
    (s.guaranteed_sl = false → bandPL s PL = PL - s.broker_cost) := by
  constructor <;> intro hg
  · simp only [bandPL_eq, hg, if_true, min_def, max_def]
    split_ifs <;> linarith
  · simp [bandPL, hg]

/-- Witness for C3: stop = −10 pips, target = +20 pips, broker cost =
2 pips, raw P/L = +35 pips closes at +20 pips minus cost with the
guaranteed stop and at +35 pips minus cost without it. -/
theorem C3_bandPL_clamp_witness :
    bandPL (initState (-10/10000) (20/10000) true (2/10000) 1) (35/10000)
        = 20/10000 - 2/10000 ∧
    bandPL (initState (-10/10000) (20/10000) false (2/10000) 1) (35/10000)
        = 35/10000 - 2/10000 := by
  constructor
  · have h := (C3_bandPL_clamp (initState (-10/10000) (20/10000) true (2/10000) 1)
      (35/10000) (by norm_num [initState])).1 rfl
    rw [h]
    norm_num [initState]
  · exact (C3_bandPL_clamp (initState (-10/10000) (20/10000) false (2/10000) 1)
      (35/10000) (by norm_num [initState])).2 rfl

/-- **C4**: the stop/target evaluation breaches exactly the spec's
conditions — long: take-profit at `bid ≥ take_profit_px`, stop-loss at
`bid ≤ stop_loss_px`; short: take-profit at `ask ≤ take_profit_px`,
stop-loss at `ask ≥ stop_loss_px` — with take-profit checked first, so a
bar breaching both closes on the take-profit branch; and
`checkStopConditions` closes the position exactly when some limit is
hit. -/
theorem C4_stop_target (s : EngineState) (bid ask : ℚ) (i : ℕ) :
    (s.prev_traded_position = 1 →
      ((checkStopHit s bid ask = some LimitHit.takeProfit ↔
          bid ≥ s.take_profit_px) ∧
       (checkStopHit s bid ask = some LimitHit.stopLoss ↔
          bid ≤ s.stop_loss_px ∧ ¬ bid ≥ s.take_profit_px) ∧
       (bid ≥ s.take_profit_px ∧ bid ≤ s.stop_loss_px →
          checkStopHit s bid ask = some LimitHit.takeProfit))) ∧
    (s.prev_traded_position = -1 →
      ((checkStopHit s bid ask = some LimitHit.takeProfit ↔
          ask ≤ s.take_profit_px) ∧
       (checkStopHit s bid ask = some LimitHit.stopLoss ↔
          ask ≥ s.stop_loss_px ∧ ¬ ask ≤ s.take_profit_px) ∧
       (ask ≤ s.take_profit_px ∧ ask ≥ s.stop_loss_px →
          checkStopHit s bid ask = some LimitHit.takeProfit))) ∧
    ((s.prev_traded_position = 1 ∨ s.prev_traded_position = -1) →
      ((checkStopConditions s bid ask i).prev_traded_position = 0 ↔
        (checkStopHit s bid ask).isSome)) := by
  refine ⟨?_, ?_, ?_⟩
  · intro h1
    simp only [checkStopHit, h1]
    norm_num
    refine ⟨?_, ?_, ?_⟩ <;> intros <;>
      first
        | (exfalso; linarith)
        | simp_all
        | (split_ifs <;> simp_all)
  · intro h1
    simp only [checkStopHit, h1]
    norm_num
    refine ⟨?_, ?_, ?_⟩ <;> intros <;>
      first
        | (exfalso; linarith)
        | simp_all
        | (split_ifs <;> simp_all)
  · rintro (h1 | h1) <;>
      simp only [checkStopConditions, checkStopHit, closeTrade, h1] <;>
      norm_num <;> split_ifs <;> simp

/-- Witness for C4: a long opened at ask 1 with inverted offsets
(stop +0.002, target −0.001) has both limits breached at bid 1 on the
next bar, and the hit is the take-profit branch; the analogous short also
closes on take-profit; both positions actually close. -/
theorem C4_stop_target_witness :
    checkStopHit (buy (initState (2/1000) (-1/1000) false 0 2) 1 1 0) 1 1
      = some LimitHit.takeProfit ∧
    (checkStopConditions (buy (initState (2/1000) (-1/1000) false 0 2) 1 1 0)
      1 1 1).prev_traded_position = 0 ∧
    checkStopHit (sell (initState (2/1000) (-1/1000) false 0 2) 1 1 0) 1 1
      = some LimitHit.takeProfit ∧
    (checkStopConditions (sell (initState (2/1000) (-1/1000) false 0 2) 1 1 0)
      1 1 1).prev_traded_position = 0 := by
  have hL := C4_stop_target (buy (initState (2/1000) (-1/1000) false 0 2) 1 1 0) 1 1 1
  have hS := C4_stop_target (sell (initState (2/1000) (-1/1000) false 0 2) 1 1 0) 1 1 1
  have h1 := (hL.1 (by norm_num [buy, initState])).2.2
    ⟨by norm_num [buy, initState], by norm_num [buy, initState]⟩
  have h2 := (hS.2.1 (by norm_num [sell, initState])).2.2
    ⟨by norm_num [sell, initState], by norm_num [sell, initState]⟩
  refine ⟨h1, ?_, h2, ?_⟩
  · exact (hL.2.2 (Or.inl (by norm_num [buy, initState]))).2 (by rw [h1]; rfl)
  · exact (hS.2.2 (Or.inr (by norm_num [sell, initState]))).2 (by rw [h2]; rfl)

/-- **C1**: the transition table — from flat, Buy opens a long at the ask
and Sell opens a short at the bid (entry and execution price recorded from
the matching side); a Sell while long closes at the bid and a Buy while
short closes at the ask; a same-direction signal is exactly the
stop/target check on the existing position. -/
theorem C1_transition_table (s : EngineState) (bid ask : ℚ) (i : ℕ) :
    (s.prev_traded_position = 0 →
      ((buy s bid ask i).prev_traded_position = 1 ∧
       (buy s bid ask i).prev_traded_price = some ask ∧
       (buy s bid ask i).executed_price = s.executed_price.set i (some ask) ∧
       (sell s bid ask i).prev_traded_position = -1 ∧
       (sell s bid ask i).prev_traded_price = some bid ∧
       (sell s bid ask i).executed_price = s.executed_price.set i (some bid))) ∧
    (s.prev_traded_position = 1 →
      ((sell s bid ask i).prev_traded_position = 0 ∧
       (sell s bid ask i).total_profit
         = s.total_profit + bandPL s ((1 : ℚ) * (bid - s.prev_traded_price.getD 0)) ∧
       (sell s bid ask i).executed_price = s.executed_price.set i (some bid) ∧
       buy s bid ask i = checkStopConditions s bid ask i)) ∧
    (s.prev_traded_position = -1 →
      ((buy s bid ask i).prev_traded_position = 0 ∧
       (buy s bid ask i).total_profit
         = s.total_profit + bandPL s ((-1 : ℚ) * (ask - s.prev_traded_price.getD 0)) ∧
       (buy s bid ask i).executed_price = s.executed_price.set i (some ask) ∧
       sell s bid ask i = checkStopConditions s bid ask i)) := by
  refine ⟨?_, ?_, ?_⟩ <;> intro h
  · simp [buy, sell, h]
  · refine ⟨?_, ?_, ?_, ?_⟩ <;> simp [buy, sell, closeTrade, h]
  · refine ⟨?_, ?_, ?_, ?_⟩ <;> simp [buy, sell, closeTrade, h]

/-- Witness for C1: an open from flat followed by the opposing signal
closes the position, on both the long and the short round trip. -/
theorem C1_transition_table_witness :
    (sell (buy (initState (-1/1000) (2/1000) false (2/10000) 2)
        (11048/10000) (11050/10000) 0)
      (11070/10000) (11072/10000) 1).prev_traded_position = 0 ∧
    (buy (sell (initState (-1/1000) (2/1000) false (2/10000) 2)
        (11048/10000) (11050/10000) 0)
      (11070/10000) (11072/10000) 1).prev_traded_position = 0 := by
  have h0 := C1_transition_table (initState (-1/1000) (2/1000) false (2/10000) 2)
    (11048/10000) (11050/10000) 0
  have hopen := h0.1 rfl
  have hL := C1_transition_table
    (buy (initState (-1/1000) (2/1000) false (2/10000) 2)
      (11048/10000) (11050/10000) 0) (11070/10000) (11072/10000) 1
  have hS := C1_transition_table
    (sell (initState (-1/1000) (2/1000) false (2/10000) 2)
      (11048/10000) (11050/10000) 0) (11070/10000) (11072/10000) 1
  exact ⟨(hL.2.1 hopen.1).1, (hS.2.2 hopen.2.2.2.1).1⟩

/-- **C2**: every close — by opposing signal or by stop/target breach —
adds the banded P/L for `side_sign * (close_price − entry_price)` (bid
closing a long, ask closing a short) to the cumulative profit, counts the
trade, classifies it by the sign of `round(net P/L, 5)`, and resets the
state to flat with the entry price and both limit levels cleared. -/
theorem C2_close_bookkeeping (s : EngineState) (bid ask : ℚ) (i : ℕ) :
    (s.prev_traded_position = 1 →
      closeOutcome s (sell s bid ask i)
        (bandPL s ((1 : ℚ) * (bid - s.prev_traded_price.getD 0)))) ∧
    (s.prev_traded_position = 1 →
      (bid ≥ s.take_profit_px ∨ bid ≤ s.stop_loss_px) →
      closeOutcome s (checkStopConditions s bid ask i)
        (bandPL s ((1 : ℚ) * (bid - s.prev_traded_price.getD 0)))) ∧
    (s.prev_traded_position = -1 →
      closeOutcome s (buy s bid ask i)
        (bandPL s ((-1 : ℚ) * (ask - s.prev_traded_price.getD 0)))) ∧
    (s.prev_traded_position = -1 →
      (ask ≤ s.take_profit_px ∨ ask ≥ s.stop_loss_px) →
      closeOutcome s (checkStopConditions s bid ask i)
        (bandPL s ((-1 : ℚ) * (ask - s.prev_traded_price.getD 0)))) := by
  refine ⟨?_, ?_, ?_, ?_⟩
  · intro h
    simp [closeOutcome, sell, closeTrade, h]
  · intro h hbr
    by_cases htb : s.take_profit_px ≤ bid
    · simp [closeOutcome, checkStopConditions, closeTrade, h, htb]
    · rcases hbr with hbr | hbr
      · exact absurd hbr htb
      · simp [closeOutcome, checkStopConditions, closeTrade, h, htb, hbr]
  · intro h
    simp [closeOutcome, buy, closeTrade, h]
  · intro h hbr
    by_cases htb : s.take_profit_px ≥ ask
    · simp [closeOutcome, checkStopConditions, closeTrade, h, htb]
    · rcases hbr with hbr | hbr
      · exact absurd hbr htb
      · simp [closeOutcome, checkStopConditions, closeTrade, h, htb, hbr]

/-- Witness for C2: buy at ask 1.1050, sell close at bid 1.1070 with a
2-pip broker cost books 0.0018 net profit, counts one trade and one win,
and lands flat. -/
theorem C2_close_bookkeeping_witness :
    (sell (buy (initState (-10/10000) (20/10000) false (2/10000) 2)
        (11048/10000) (11050/10000) 0)
      (11070/10000) (11072/10000) 1).trades_total = 1 ∧
    (sell (buy (initState (-10/10000) (20/10000) false (2/10000) 2)
        (11048/10000) (11050/10000) 0)
      (11070/10000) (11072/10000) 1).total_profit = 18/10000 ∧
    (sell (buy (initState (-10/10000) (20/10000) false (2/10000) 2)
        (11048/10000) (11050/10000) 0)
      (11070/10000) (11072/10000) 1).trades_won = 1 ∧
    (sell (buy (initState (-10/10000) (20/10000) false (2/10000) 2)
        (11048/10000) (11050/10000) 0)
      (11070/10000) (11072/10000) 1).prev_traded_position = 0 := by
  have h := (C2_close_bookkeeping
    (buy (initState (-10/10000) (20/10000) false (2/10000) 2)
      (11048/10000) (11050/10000) 0)
    (11070/10000) (11072/10000) 1).1 (by norm_num [buy, initState])
  obtain ⟨h1, h2, h3, h4, h5, h6, h7, h8, h9⟩ := h
  refine ⟨?_, ?_, ?_, h6⟩
  · rw [h2]
    norm_num [buy, initState]
  · rw [h1]
    norm_num [buy, initState, bandPL, saveStats, store_executed_price]
  · rw [h3]
    norm_num [buy, initState, bandPL, round5, saveStats, store_executed_price]


theorem checkStop_trades_total (s : EngineState) (b a : ℚ) (i : ℕ) :
    (checkStopConditions s b a i).trades_total
      = s.trades_total + (if (checkStopHit s b a).isSome then 1 else 0) := by
  simp only [checkStopConditions, checkStopHit]
  split_ifs <;> simp_all [closeTrade]

/-- **C6**: starting from the all-zero initial state, every reachable
state satisfies `trades_won + trades_lost + trades_tied = trades_total`,
and every engine operation increases `trades_total` by exactly 1 when it
closes a position on that bar and leaves it unchanged otherwise. -/
theorem C6_trade_counters :
    (∀ s, Reachable s →
      s.trades_won + s.trades_lost + s.trades_tied = s.trades_total) ∧
    (∀ s op, (applyOp s op).trades_total
      = s.trades_total + (if closesBar s op then 1 else 0)) := by
  refine ⟨?_, ?_⟩
  · intro s hs
    exact (reachable_inv s hs).2.2.2.2.2
  · intro s op
    cases op with
    | buy b a i =>
      by_cases h0 : s.prev_traded_position = 0
      · simp [applyOp, buy, closesBar, h0]
      · by_cases h1 : s.prev_traded_position = 1
        · simp [applyOp, buy, closesBar, h0, h1, checkStop_trades_total]
        · by_cases h2 : s.prev_traded_position = -1
          · simp [applyOp, buy, closesBar, closeTrade, h0, h1, h2]
          · simp [applyOp, buy, closesBar, h0, h1, h2]
    | sell b a i =>
      by_cases h0 : s.prev_traded_position = 0
      · simp [applyOp, sell, closesBar, h0]
      · by_cases h2 : s.prev_traded_position = -1
        · simp [applyOp, sell, closesBar, h0, h2, checkStop_trades_total]
        · by_cases h1 : s.prev_traded_position = 1
          · simp [applyOp, sell, closesBar, closeTrade, h0, h1, h2]
          · simp [applyOp, sell, closesBar, h0, h1, h2]
    | check b a i =>
      simp [applyOp, closesBar, checkStop_trades_total]

/-- Witness for C6: the invariant at a freshly constructed engine and the
zero-delta of a hold bar while flat. -/
theorem C6_trade_counters_witness :
    (initState 1 2 true 3 4).trades_won + (initState 1 2 true 3 4).trades_lost
        + (initState 1 2 true 3 4).trades_tied
      = (initState 1 2 true 3 4).trades_total ∧
    (applyOp (initState 1 2 true 3 4) (Op.check 1 1 0)).trades_total
      = (initState 1 2 true 3 4).trades_total
        + (if closesBar (initState 1 2 true 3 4) (Op.check 1 1 0) then 1 else 0) :=
  ⟨C6_trade_counters.1 _ ⟨1, 2, true, 3, 4, [], rfl⟩,
   C6_trade_counters.2 _ _⟩

/-- **C7**: on every open from flat of a reachable engine, the entry
price is the execution price (ask for a long, bid for a short), the
limit levels are `entry + side_sign * offset` with `side_sign = +1` for a
long and `-1` for a short, and the realized P/L recorded for the opening
bar is zero. -/
theorem C7_open_levels (s : EngineState) (bid ask : ℚ) (i : ℕ)
    (hs : Reachable s) (h0 : s.prev_traded_position = 0)
    (hi : i < s.arr_PL.length) :
    ((buy s bid ask i).prev_traded_price = some ask ∧
     (buy s bid ask i).stop_loss_px = ask + 1 * s.original_stop_loss ∧
     (buy s bid ask i).take_profit_px = ask + 1 * s.original_take_profit ∧
     (buy s bid ask i).arr_PL[i]? = some (some 0)) ∧
    ((sell s bid ask i).prev_traded_price = some bid ∧
     (sell s bid ask i).stop_loss_px = bid + (-1) * s.original_stop_loss ∧
     (sell s bid ask i).take_profit_px = bid + (-1) * s.original_take_profit ∧
     (sell s bid ask i).arr_PL[i]? = some (some 0)) := by
  obtain ⟨-, hsl, htp, -, -, -⟩ := reachable_inv s hs
  constructor <;> refine ⟨?_, ?_, ?_, ?_⟩ <;>
    simp [buy, sell, h0, hsl, htp, List.getElem?_set, hi] <;> ring

/-- Witness for C7 at a one-bar engine with stop −10 pips / target +20
pips, opened at price 1. -/
theorem C7_open_levels_witness :
    ((buy (initState (-10/10000) (20/10000) false (2/10000) 1) 1 1 0).stop_loss_px
      = 1 + 1 * (-10/10000) ∧
     (buy (initState (-10/10000) (20/10000) false (2/10000) 1) 1 1 0).arr_PL[0]?
      = some (some 0)) ∧
    ((sell (initState (-10/10000) (20/10000) false (2/10000) 1) 1 1 0).take_profit_px
      = 1 + (-1) * (20/10000) ∧
     (sell (initState (-10/10000) (20/10000) false (2/10000) 1) 1 1 0).arr_PL[0]?
      = some (some 0)) := by
  have h := C7_open_levels (initState (-10/10000) (20/10000) false (2/10000) 1) 1 1 0
    ⟨-10/10000, 20/10000, false, 2/10000, 1, [], rfl⟩ rfl
    (by norm_num [initState])
  exact ⟨⟨h.1.2.1, h.1.2.2.2⟩, ⟨h.2.2.2.1, h.2.2.2.2⟩⟩

/-- **C8**: in every reachable state the entry price and both limit
levels are set together (open position) or cleared together (flat),
never partially: every open writes all three in the same step and every
close clears all three in the same step. -/
theorem C8_position_fields :
    (∀ s, Reachable s →
      ((s.prev_traded_position = 0 →
        s.prev_traded_price = none ∧ s.stop_loss_px = 0 ∧ s.take_profit_px = 0) ∧
       (s.prev_traded_position ≠ 0 → ∃ p, s.prev_traded_price = some p))) ∧
    (∀ s bid ask i, s.prev_traded_position = 0 →
      ((buy s bid ask i).prev_traded_price = some ask ∧
       (buy s bid ask i).stop_loss_px = ask + s.stop_loss ∧
       (buy s bid ask i).take_profit_px = ask + s.take_profit ∧
       (sell s bid ask i).prev_traded_price = some bid ∧
       (sell s bid ask i).stop_loss_px = bid - s.stop_loss ∧
       (sell s bid ask i).take_profit_px = bid - s.take_profit)) ∧
    (∀ s PL bid ask i,
      (closeTrade s PL bid ask i).prev_traded_price = none ∧
      (closeTrade s PL bid ask i).stop_loss_px = 0 ∧
      (closeTrade s PL bid ask i).take_profit_px = 0) := by
  refine ⟨?_, ?_, ?_⟩
  · intro s hs
    obtain ⟨-, -, -, hflat, hopen, -⟩ := reachable_inv s hs
    exact ⟨hflat, hopen⟩
  · intro s bid ask i h0
    refine ⟨?_, ?_, ?_, ?_, ?_, ?_⟩ <;> simp [buy, sell, h0]
  · intro s PL bid ask i
    refine ⟨?_, ?_, ?_⟩ <;> simp [closeTrade]

/-- Witness for C8: cleared fields at construction, entry recorded by an
open, and levels cleared by a close. -/
theorem C8_position_fields_witness :
    ((initState 1 2 true 3 4).prev_traded_price = none ∧
     (initState 1 2 true 3 4).stop_loss_px = 0 ∧
     (initState 1 2 true 3 4).take_profit_px = 0) ∧
    (buy (initState 1 2 true 3 4) 5 6 0).prev_traded_price = some 6 ∧
    (closeTrade (initState 1 2 true 3 4) 7 5 6 0).stop_loss_px = 0 := by
  refine ⟨(C8_position_fields.1 _ ⟨1, 2, true, 3, 4, [], rfl⟩).1 rfl, ?_, ?_⟩
  · exact (C8_position_fields.2.1 (initState 1 2 true 3 4) 5 6 0 rfl).1
  · exact (C8_position_fields.2.2 (initState 1 2 true 3 4) 7 5 6 0).2.1


theorem checkStop_arr_len (s : EngineState) (b a : ℚ) (i : ℕ) :
    (checkStopConditions s b a i).arr_total_profit.length
      = s.arr_total_profit.length := by
  simp only [checkStopConditions]
  split_ifs <;> simp [closeTrade]

theorem applyOp_arr_len (s : EngineState) (op : Op) :
    (applyOp s op).arr_total_profit.length = s.arr_total_profit.length := by
  cases op with
  | buy b a i =>
    by_cases h0 : s.prev_traded_position = 0
    · simp [applyOp, buy, h0]
    · by_cases h1 : s.prev_traded_position = 1
      · simp [applyOp, buy, h0, h1, checkStop_arr_len]
      · by_cases h2 : s.prev_traded_position = -1
        · simp [applyOp, buy, closeTrade, h0, h1, h2]
        · simp [applyOp, buy, h0, h1, h2]
  | sell b a i =>
    by_cases h0 : s.prev_traded_position = 0
    · simp [applyOp, sell, h0]
    · by_cases h2 : s.prev_traded_position = -1
      · simp [applyOp, sell, h0, h2, checkStop_arr_len]
      · by_cases h1 : s.prev_traded_position = 1
        · simp [applyOp, sell, closeTrade, h0, h1, h2]
        · simp [applyOp, sell, h0, h1, h2]
  | check b a i =>
    simpa [applyOp] using checkStop_arr_len s b a i

theorem runOps_arr_len (s : EngineState) (ops : List Op) :
    (runOps s ops).arr_total_profit.length = s.arr_total_profit.length := by
  induction ops generalizing s with
  | nil => rfl
  | cons op rest ih =>
    simpa [runOps, List.foldl] using (ih (applyOp s op)).trans (applyOp_arr_len s op)

/-- **C9**: over any run on at least one bar, `getSummary` returns; when
no trade was counted the summary carries Total Trades = 0 and all three
percentage fields 0 with no division error, and when trades were counted
each percentage is `count / total * 100`. -/
theorem C9_summary_percentages (sl tp : ℚ) (g : Bool) (c : ℚ) (n : ℕ)
    (ops : List Op) (hn : 0 < n) :
    ((runOps (initState sl tp g c n) ops).trades_total = 0 →
      ∃ pl, getSummary (runOps (initState sl tp g c n) ops)
        = some (0, pl,
            (runOps (initState sl tp g c n) ops).trades_won, 0,
            (runOps (initState sl tp g c n) ops).trades_lost, 0,
            (runOps (initState sl tp g c n) ops).trades_tied, 0)) ∧
    (0 < (runOps (initState sl tp g c n) ops).trades_total →
      ∃ pl, getSummary (runOps (initState sl tp g c n) ops)
        = some ((runOps (initState sl tp g c n) ops).trades_total, pl,
            (runOps (initState sl tp g c n) ops).trades_won,
            ((runOps (initState sl tp g c n) ops).trades_won : ℚ)
              / (runOps (initState sl tp g c n) ops).trades_total * 100,
            (runOps (initState sl tp g c n) ops).trades_lost,
            ((runOps (initState sl tp g c n) ops).trades_lost : ℚ)
              / (runOps (initState sl tp g c n) ops).trades_total * 100,
            (runOps (initState sl tp g c n) ops).trades_tied,
            ((runOps (initState sl tp g c n) ops).trades_tied : ℚ)
              / (runOps (initState sl tp g c n) ops).trades_total * 100)) := by
  have hlen : (runOps (initState sl tp g c n) ops).arr_total_profit.length = n := by
    rw [runOps_arr_len]
    simp [initState]
  have hne : (runOps (initState sl tp g c n) ops).arr_total_profit ≠ [] := by
    intro hempty
    rw [hempty] at hlen
    simp at hlen
    omega
  obtain ⟨pl, hpl⟩ := Option.isSome_iff_exists.mp (List.getLast?_isSome.mpr hne)
  constructor
  · intro h0
    exact ⟨pl, by simp [getSummary, hpl, h0]⟩
  · intro h0
    exact ⟨pl, by simp [getSummary, hpl, h0, Nat.pos_iff_ne_zero.mp h0]⟩

/-- Witness for C9: a zero-trade one-bar run and a one-trade two-bar run. -/
theorem C9_summary_percentages_witness :
    (∃ pl, getSummary (runOps (initState 1 2 true 3 1) [])
      = some (0, pl, 0, 0, 0, 0, 0, 0)) ∧
    (∃ pl, getSummary (runOps (initState (-10/10000) (20/10000) false (2/10000) 2)
        [Op.buy 1 1 0, Op.sell (1001/1000) (1001/1000) 1])
      = some (1, pl, 1, 100, 0, 0, 0, 0)) := by
  constructor
  · have h := (C9_summary_percentages 1 2 true 3 1 [] (by norm_num)).1
    simpa [runOps, initState] using h (by simp [runOps, initState])
  · have htot : (runOps (initState (-10/10000) (20/10000) false (2/10000) 2)
        [Op.buy 1 1 0, Op.sell (1001/1000) (1001/1000) 1]).trades_total = 1 := by
      norm_num [runOps, applyOp, buy, sell, closeTrade, initState,
        saveStats, store_executed_price]
    have hw : (runOps (initState (-10/10000) (20/10000) false (2/10000) 2)
        [Op.buy 1 1 0, Op.sell (1001/1000) (1001/1000) 1]).trades_won = 1 := by
      norm_num [runOps, applyOp, buy, sell, closeTrade, initState,
        saveStats, store_executed_price, bandPL, round5]
    have hl : (runOps (initState (-10/10000) (20/10000) false (2/10000) 2)
        [Op.buy 1 1 0, Op.sell (1001/1000) (1001/1000) 1]).trades_lost = 0 := by
      norm_num [runOps, applyOp, buy, sell, closeTrade, initState,
        saveStats, store_executed_price, bandPL, round5]
    have ht : (runOps (initState (-10/10000) (20/10000) false (2/10000) 2)
        [Op.buy 1 1 0, Op.sell (1001/1000) (1001/1000) 1]).trades_tied = 0 := by
      norm_num [runOps, applyOp, buy, sell, closeTrade, initState,
        saveStats, store_executed_price, bandPL, round5]
    have h := (C9_summary_percentages (-10/10000) (20/10000) false (2/10000) 2
      [Op.buy 1 1 0, Op.sell (1001/1000) (1001/1000) 1] (by norm_num)).2 (by rw [htot]; norm_num)
    obtain ⟨pl, hpl⟩ := h
    rw [htot, hw, hl, ht] at hpl
    exact ⟨pl, by simpa using hpl⟩

/-- **C10**: `getSummary` reads the last cumulative-profit cell, which
exists exactly when the engine was constructed over at least one bar: the
access succeeds for every run over `n ≥ 1` bars and fails (out of
bounds, modelled as `none`) for a zero-bar engine. -/
theorem C10_summary_last_access (sl tp : ℚ) (g : Bool) (c : ℚ) (n : ℕ)
    (ops : List Op) :
    (1 ≤ n → (getSummary (runOps (initState sl tp g c n) ops)).isSome) ∧
    (n = 0 → getSummary (runOps (initState sl tp g c n) ops) = none) := by
  have hlen : (runOps (initState sl tp g c n) ops).arr_total_profit.length = n := by
    rw [runOps_arr_len]
    simp [initState]
  constructor
  · intro hn
    have hne : (runOps (initState sl tp g c n) ops).arr_total_profit ≠ [] := by
      intro hempty
      rw [hempty] at hlen
      simp at hlen
      omega
    obtain ⟨pl, hpl⟩ := Option.isSome_iff_exists.mp (List.getLast?_isSome.mpr hne)
    simp [getSummary, hpl]
  · intro hn
    have hempty : (runOps (initState sl tp g c n) ops).arr_total_profit = [] :=
      List.length_eq_zero.mp (hlen.trans hn)
    simp [getSummary, hempty]

/-- Witness for C10: the summary returns on a one-bar engine and fails on
a zero-bar engine. -/
theorem C10_summary_last_access_witness :
    (getSummary (runOps (initState 1 2 true 3 1) [])).isSome ∧
    getSummary (runOps (initState 1 2 true 3 0) []) = none :=
  ⟨(C10_summary_last_access 1 2 true 3 1 []).1 (by norm_num),
   (C10_summary_last_access 1 2 true 3 0 []).2 rfl⟩


/-- **C5** fails on the code (code bug): opening a long from flat at ask
1.1050 with take-profit offset +0.0020 computes the take-profit level
1.1070 but records the *offset* 0.0020 in the bar's Take Profit history
cell — the short side records the computed level, witnessing the
intent — and the following hold bar records nothing in either level
cell even though a position is open. -/
theorem C5_failing_eval :
    (buy (initState (-10/10000) (20/10000) false (2/10000) 3)
        (11048/10000) (11050/10000) 0).take_profit_px = 11070/10000 ∧
    (buy (initState (-10/10000) (20/10000) false (2/10000) 3)
        (11048/10000) (11050/10000) 0).take_profit_px_list[0]?
      = some (some (20/10000)) ∧
    ((20 : ℚ)/10000 ≠ 11070/10000) ∧
    (sell (initState (-10/10000) (20/10000) false (2/10000) 3)
        (11048/10000) (11050/10000) 0).take_profit_px_list[0]?
      = some (some (11048/10000 - 20/10000)) ∧
    (checkStopConditions
      (buy (initState (-10/10000) (20/10000) false (2/10000) 3)
        (11048/10000) (11050/10000) 0)
      (11052/10000) (11054/10000) 1).prev_traded_position = 1 ∧
    (checkStopConditions
      (buy (initState (-10/10000) (20/10000) false (2/10000) 3)
        (11048/10000) (11050/10000) 0)
      (11052/10000) (11054/10000) 1).take_profit_px_list[1]? = some none ∧
    (checkStopConditions
      (buy (initState (-10/10000) (20/10000) false (2/10000) 3)
        (11048/10000) (11050/10000) 0)
      (11052/10000) (11054/10000) 1).stop_loss_px_list[1]? = some none := by
  refine ⟨?_, ?_, ?_, ?_, ?_, ?_, ?_⟩
  all_goals
    norm_num [buy, sell, checkStopConditions, closeTrade, initState,
      saveStats, store_executed_price, List.getElem?_set,
      List.getElem?_replicate]
  all_goals
    simp [List.getElem?_set, List.getElem?_replicate]

end SignalHandler
